import Mathlib

/-!
Verification of the GoPot multi-port honeypot (jackyes/GoPot).

This file shallowly embeds the concurrency-relevant and functional parts of
`GoPot.go` (and, where a claim concerns them, the banner-dispatch variant of
the repository): port validation, the accept-loop/semaphore discipline, the
connection handler's event trace, banner dispatch, shutdown registry draining,
and the process exit-code logic.
-/

namespace GoPot

/-! ## Port validation (`isValidPort`, `strconv.Atoi`)

`GoPot.go` lines 163-166:
```
func isValidPort(port string) bool {
    p, err := strconv.Atoi(port)
    return err == nil && p > 0 && p <= 65535
}
```
`strconv.Atoi(s)` is `ParseInt(s, 10, 0)` on a 64-bit platform: an optional
leading sign, then one or more ASCII digits and nothing else; values outside
the 64-bit signed range are an error. -/

/-- Numeric value of a list of decimal digit characters, most significant
first. -/
def digitsToNat (cs : List Char) : Nat :=
  cs.foldl (fun a c => 10 * a + (c.toNat - ('0').toNat)) 0

/-- Model of Go `strconv.Atoi`: `none` is the error case. Accepts an optional
leading `+` or `-` followed by one or more decimal digits; rejects anything
else and values outside the signed 64-bit range. -/
def atoi (s : String) : Option Int :=
  match s.data with
  | [] => none
  | c :: cs =>
    let p : Bool × List Char :=
      if c = '-' then (true, cs)
      else if c = '+' then (false, cs)
      else (false, c :: cs)
    if p.2.isEmpty then none
    else if p.2.all (fun d => d.isDigit) then
      let v : Int := if p.1 then -(digitsToNat p.2 : Int) else (digitsToNat p.2 : Int)
      if v < -(2 ^ 63) ∨ v > 2 ^ 63 - 1 then none else some v
    else none

/-- `isValidPort` from `GoPot.go`: Atoi succeeds and the value lies in
`(0, 65535]`. -/
def isValidPort (port : String) : Bool :=
  match atoi port with
  | some p => decide (0 < p ∧ p ≤ 65535)
  | none => false

/-- The validation loop of `main` (`GoPot.go` lines 176-184): each entry that
passes `isValidPort` is appended to `validPorts`; each entry that fails it
produces one "Invalid port number" warning. Returns
(validPorts, warned entries). -/
def validateAndWarn (ports : List String) : List String × List String :=
  ports.foldl
    (fun acc port =>
      if isValidPort port then (acc.1 ++ [port], acc.2) else (acc.1, acc.2 ++ [port]))
    ([], [])

theorem validateAndWarn_go (acc₁ acc₂ : List String) (ports : List String) :
    ports.foldl
      (fun acc port =>
        if isValidPort port then (acc.1 ++ [port], acc.2) else (acc.1, acc.2 ++ [port]))
      (acc₁, acc₂)
    = (acc₁ ++ ports.filter (fun p => isValidPort p),
       acc₂ ++ ports.filter (fun p => !isValidPort p)) := by
  induction ports generalizing acc₁ acc₂ with
  | nil => simp
  | cons p ps ih =>
    by_cases h : isValidPort p
    · simp [List.foldl_cons, h, ih]
    · simp [List.foldl_cons, h, ih]

/-- The valid-ports component is exactly the order-preserving filter of the
input by `isValidPort`. -/
theorem validateAndWarn_fst (ports : List String) :
    (validateAndWarn ports).1 = ports.filter (fun p => isValidPort p) := by
  unfold validateAndWarn
  rw [validateAndWarn_go]
  simp

/-- The warned component is exactly the invalid entries, in order. -/
theorem validateAndWarn_snd (ports : List String) :
    (validateAndWarn ports).2 = ports.filter (fun p => !isValidPort p) := by
  unfold validateAndWarn
  rw [validateAndWarn_go]
  simp

/-- `isValidPort` accepts exactly the strings Atoi parses to a value in
`(0, 65535]`. -/
theorem isValidPort_iff (s : String) :
    isValidPort s = true ↔ ∃ p : Int, atoi s = some p ∧ 0 < p ∧ p ≤ 65535 := by
  unfold isValidPort
  cases h : atoi s with
  | none => simp
  | some p =>
    simp only [decide_eq_true_eq, Option.some.injEq]
    constructor
    · intro hp
      exact ⟨p, rfl, hp⟩
    · rintro ⟨q, hq, hq2⟩
      cases hq
      exact hq2

/-! ## The admission semaphore and the accept loops

`GoPot.go` line 191-192: `maxConnections = 100`;
`semaphore = make(chan struct{}, maxConnections)` — a buffered channel of
capacity `maxConnections`. A send (`semaphore <- struct{}{}`) blocks while the
buffer is full; a receive (`<-semaphore`) takes one token out.

Each accept loop (`listenOnPort`, lines 143-159) repeatedly: sends on the
semaphore (acquire), calls `Accept`; on accept error it receives from the
semaphore (immediate release) and continues; on accept success it registers
the connection and spawns `handleConnection`, whose deferred cleanup performs
the receive (release).

We model any interleaving of the accept loops and handler goroutines as a
small-step transition system. Listeners are interchangeable for the claimed
invariants, so the state tracks how many are at each program point. -/

/-- `maxConnections` as set in `main` (`GoPot.go` line 191). -/
def maxConnections : Nat := 100

/-- Global state of one run: `sem` is the number of tokens currently in the
semaphore channel buffer, `accepting` the number of listener goroutines that
have sent on the semaphore and are inside `Accept`, `idle` the number of
listener goroutines before the send, `handlers` the number of running
`handleConnection` goroutines (each owns one buffered token until its deferred
receive), and `acq`/`rel` count semaphore sends/receives so far. -/
structure SysState where
  sem : Nat
  accepting : Nat
  idle : Nat
  handlers : Nat
  acq : Nat
  rel : Nat
  deriving DecidableEq, Repr

/-- One scheduler step of the system, for semaphore capacity `C`.

* `acquire`: an idle listener completes `semaphore <- struct{}{}`; only
  enabled while the buffer is below capacity.
* `acceptOk`: a listener's `Accept` returns a connection; the listener
  registers it, spawns its handler (which now owns the buffered token), and
  loops back to the send.
* `acceptErr`: a listener's `Accept` fails; the error branch immediately
  executes `<-semaphore` and the listener continues the loop.
* `handlerDone`: a handler goroutine finishes; its deferred cleanup executes
  `<-semaphore`. -/
inductive Step (C : Nat) : SysState → SysState → Prop
  | acquire (sem a i h q r : Nat) (hcap : sem < C) :
      Step C ⟨sem, a, i + 1, h, q, r⟩ ⟨sem + 1, a + 1, i, h, q + 1, r⟩
  | acceptOk (sem a i h q r : Nat) :
      Step C ⟨sem, a + 1, i, h, q, r⟩ ⟨sem, a, i + 1, h + 1, q, r⟩
  | acceptErr (sem a i h q r : Nat) :
      Step C ⟨sem + 1, a + 1, i, h, q, r⟩ ⟨sem, a, i + 1, h, q, r + 1⟩
  | handlerDone (sem a i h q r : Nat) :
      Step C ⟨sem + 1, a, i, h + 1, q, r⟩ ⟨sem, a, i, h, q, r + 1⟩

/-- Initial state of a run with `n` port listeners: empty semaphore buffer,
every listener at the top of its loop, no handlers, no history. -/
def initState (n : Nat) : SysState := ⟨0, 0, n, 0, 0, 0⟩

/-- Reachability under any interleaving of the listeners and handlers. -/
def Reach (C : Nat) (s t : SysState) : Prop :=
  Relation.ReflTransGen (Step C) s t

/-- The inductive invariant of the semaphore discipline: the buffered tokens
are exactly those owned by accepting listeners and live handlers, the buffer
never exceeds capacity, and every send is matched by a receive or a
still-owned token. -/
def SemInv (C : Nat) (s : SysState) : Prop :=
  s.sem = s.accepting + s.handlers ∧ s.sem ≤ C ∧ s.acq = s.rel + s.sem

theorem semInv_init (C n : Nat) : SemInv C (initState n) := by
  refine ⟨rfl, Nat.zero_le _, rfl⟩

theorem semInv_step {C : Nat} {s t : SysState} (hs : SemInv C s) (h : Step C s t) :
    SemInv C t := by
  obtain ⟨h1, h2, h3⟩ := hs
  cases h with
  | acquire sem a i hh q r hcap =>
    have e1 : sem = a + hh := h1
    have e2 : sem ≤ C := h2
    have e3 : q = r + sem := h3
    exact ⟨show sem + 1 = (a + 1) + hh by omega,
           show sem + 1 ≤ C by omega,
           show q + 1 = r + (sem + 1) by omega⟩
  | acceptOk sem a i hh q r =>
    have e1 : sem = (a + 1) + hh := h1
    have e2 : sem ≤ C := h2
    have e3 : q = r + sem := h3
    exact ⟨show sem = a + (hh + 1) by omega,
           show sem ≤ C by omega,
           show q = r + sem by omega⟩
  | acceptErr sem a i hh q r =>
    have e1 : sem + 1 = (a + 1) + hh := h1
    have e2 : sem + 1 ≤ C := h2
    have e3 : q = r + (sem + 1) := h3
    exact ⟨show sem = a + hh by omega,
           show sem ≤ C by omega,
           show q = (r + 1) + sem by omega⟩
  | handlerDone sem a i hh q r =>
    have e1 : sem + 1 = a + (hh + 1) := h1
    have e2 : sem + 1 ≤ C := h2
    have e3 : q = r + (sem + 1) := h3
    exact ⟨show sem = a + hh by omega,
           show sem ≤ C by omega,
           show q = (r + 1) + sem by omega⟩

theorem semInv_reach {C : Nat} {s t : SysState} (hs : SemInv C s)
    (h : Reach C s t) : SemInv C t := by
  induction h with
  | refl => exact hs
  | tail _ hstep ih => exact semInv_step ih hstep

/-- A run is quiescent when no listener is blocked in `Accept` holding a token
and no handler goroutine is running. -/
def Quiescent (s : SysState) : Prop := s.accepting = 0 ∧ s.handlers = 0

/-! ## The connection handler as an event trace

`handleConnection` in `GoPot.go` (lines 90-127) registers a deferred cleanup,
logs the connection, writes the response, returns on write error, reads one
1024-byte buffer, returns on read error, and logs the received data; the
deferred cleanup (unregister from `activeConnections`, `<-semaphore`,
`conn.Close()`) runs last on every path. The handler branches only on whether
the write and the read succeed, so its trace is a function of those two
outcomes. -/

/-- Observable actions of one connection handler, in execution order. -/
inductive HEvent where
  | setDeadline
  | logConn
  | write
  | logWriteErr
  | read
  | logReadErr
  | logData
  | unregister
  | releaseToken
  | closeConn
  deriving DecidableEq, Repr

/-- Event trace of `handleConnection` from `GoPot.go` (lines 90-127), as a
function of whether `conn.Write` and `conn.Read` succeed. The final three
events are its deferred cleanup. -/
def handleConnection (writeOk readOk : Bool) : List HEvent :=
  [HEvent.logConn, HEvent.write] ++
    (if writeOk then
      HEvent.read ::
        (if readOk then [HEvent.logData] else [HEvent.logReadErr])
    else [HEvent.logWriteErr]) ++
    [HEvent.unregister, HEvent.releaseToken, HEvent.closeConn]

/-- Event trace of `handleConnection` from the banner-dispatch variant
(`src/unnamed/part_002`, lines 70-137): it calls
`conn.SetDeadline(time.Now().Add(10 * time.Second))` first, before the write
of the banner (or default message) and the read; cleanup is identical. -/
def handleConnectionBanner (writeOk readOk : Bool) : List HEvent :=
  [HEvent.setDeadline, HEvent.logConn, HEvent.write] ++
    (if writeOk then
      HEvent.read ::
        (if readOk then [HEvent.logData] else [HEvent.logReadErr])
    else [HEvent.logWriteErr]) ++
    [HEvent.unregister, HEvent.releaseToken, HEvent.closeConn]

/-! ## Banner dispatch

The banner-dispatch variant (`src/unnamed/part_002`, lines 91-115) writes the
configured per-port banner when `fakeBanners[port]` exists, and otherwise
writes the default `"Authentication failed.\n"`; `GoPot.go` line 105 writes
the same default unconditionally. -/

/-- The default response, written when no per-port banner is configured
(`GoPot.go` line 105; `src/unnamed/part_002` line 105). -/
def defaultResponse : String := "Authentication failed.\n"

/-- The bytes written to the peer by the banner-dispatch variant: the
configured banner for the port if one exists in the `fakeBanners` map,
otherwise the default response. -/
def bannerResponse (fakeBanners : String → Option String) (port : String) : String :=
  match fakeBanners port with
  | some banner => banner
  | none => defaultResponse

/-! ## Shutdown: draining the connection registry

`closeOpenConnections` (`GoPot.go` lines 206-216) holds `connMutex` and
iterates over the `activeConnections` map, closing each connection and
deleting its entry. Connections are modelled by opaque identifiers (`Nat`);
the map's key set is a duplicate-free list. -/

/-- State observed while draining: the remaining registry and the list of
`Close` calls issued so far, in order. -/
structure DrainState where
  reg : List Nat
  closed : List Nat
  deriving DecidableEq, Repr

/-- `closeOpenConnections` from `GoPot.go`: iterate over the registry,
closing each connection and removing its entry. -/
def closeOpenConnections (reg : List Nat) : DrainState :=
  reg.foldl (fun st c => ⟨st.reg.erase c, st.closed ++ [c]⟩) ⟨reg, []⟩

theorem closeOpenConnections_fst_go (l : List Nat) (r cl : List Nat) :
    (l.foldl (fun st c => ⟨st.reg.erase c, st.closed ++ [c]⟩) (⟨r, cl⟩ : DrainState)).reg
      = l.foldl (fun acc c => acc.erase c) r := by
  induction l generalizing r cl with
  | nil => rfl
  | cons x xs ih => exact ih (r.erase x) (cl ++ [x])

theorem closeOpenConnections_snd_go (l : List Nat) (r cl : List Nat) :
    (l.foldl (fun st c => ⟨st.reg.erase c, st.closed ++ [c]⟩) (⟨r, cl⟩ : DrainState)).closed
      = cl ++ l := by
  induction l generalizing r cl with
  | nil => simp
  | cons x xs ih => simp [ih]

theorem foldl_erase_self (l : List Nat) (hnd : l.Nodup) :
    l.foldl (fun acc c => acc.erase c) l = [] := by
  induction l with
  | nil => rfl
  | cons x xs ih =>
    have hx : (x :: xs).erase x = xs := by simp [List.erase_cons_head]
    calc (x :: xs).foldl (fun acc c => acc.erase c) (x :: xs)
        = xs.foldl (fun acc c => acc.erase c) ((x :: xs).erase x) := rfl
      _ = xs.foldl (fun acc c => acc.erase c) xs := by rw [hx]
      _ = [] := ih (List.Nodup.of_cons hnd)

/-! ## Startup and exit codes

`main` (`GoPot.go` lines 168-202) filters the configured ports; when no valid
port remains it exits with status 1. Otherwise it spawns the listeners and
the only ways the process ends are the signal handler
(`setupSignalHandling`, line 84: `os.Exit(0)`) or `main` returning after
`wg.Wait()` (exit status 0) — a bind failure makes `listenOnPort` return
without touching the exit status. -/

/-- How a run with at least one valid port ends: the shutdown signal arrives
(`os.Exit(0)`), or every listener goroutine returned (e.g. all binds failed)
so `wg.Wait()` unblocks and `main` returns. -/
inductive RunEnd where
  | signalShutdown
  | allListenersReturned
  deriving DecidableEq, Repr

/-- Result of `main`'s startup phase: immediate exit, or a run over the
validated ports. -/
inductive MainResult where
  | exitNow (code : Nat)
  | runListeners (validPorts : List String)
  deriving DecidableEq, Repr

/-- The startup phase of `main`: validate the ports; exit 1 when none are
valid, otherwise run a listener per validated port. -/
def mainStartup (ports : List String) : MainResult :=
  let validPorts := (validateAndWarn ports).1
  if validPorts.isEmpty then MainResult.exitNow 1
  else MainResult.runListeners validPorts

/-- The process exit status: the startup exit code when startup exited, and 0
for every completed run, whichever way it ended. -/
def processExitCode (r : MainResult) (e : RunEnd) : Nat :=
  match r with
  | MainResult.exitNow code => code
  | MainResult.runListeners _ =>
    match e with
    | RunEnd.signalShutdown => 0
    | RunEnd.allListenersReturned => 0

/-! ## Claim theorems -/

/-- C1: in any run with `n` port listeners and the semaphore capacity
`maxConnections = 100` set by `main`, every reachable interleaving state has
at most `maxConnections` connections being handled concurrently (and at most
`maxConnections` admission tokens held), because each accept loop sends on the
shared semaphore channel before calling `Accept`. -/
theorem admission_bound (n : Nat) (s : SysState)
    (h : Reach maxConnections (initState n) s) :
    s.handlers ≤ maxConnections ∧ s.sem ≤ maxConnections := by
  obtain ⟨h1, h2, _⟩ := semInv_reach (semInv_init maxConnections n) h
  exact ⟨by omega, h2⟩

/-- C1 witness: a concrete reachable state (two listeners; one token acquired
and its connection dispatched to a handler) satisfies the bound. -/
theorem admission_bound_holds :
    (⟨1, 0, 2, 1, 1, 0⟩ : SysState).handlers ≤ maxConnections ∧
    (⟨1, 0, 2, 1, 1, 0⟩ : SysState).sem ≤ maxConnections :=
  admission_bound 2 ⟨1, 0, 2, 1, 1, 0⟩
    (Relation.ReflTransGen.tail
      (Relation.ReflTransGen.single (Step.acquire 0 0 1 0 0 0 (by decide)))
      (Step.acceptOk 1 0 1 0 1 0))

/-- C2: every admission token is released exactly once: the handler's trace
contains exactly one semaphore release on each of its paths (write error,
read error, success), the accept-error branch itself performs the release
(transition `Step.acceptErr`), and in every reachable quiescent state the
number of semaphore acquires equals the number of releases. -/
theorem token_conservation :
    (∀ writeOk readOk : Bool,
        (handleConnection writeOk readOk).count HEvent.releaseToken = 1) ∧
    ∀ (n : Nat) (s : SysState),
      Reach maxConnections (initState n) s → Quiescent s → s.acq = s.rel := by
  refine ⟨by decide, fun n s h hq => ?_⟩
  obtain ⟨h1, _, h3⟩ := semInv_reach (semInv_init maxConnections n) h
  obtain ⟨ha, hh⟩ := hq
  omega

/-- C2 witness: the success-path trace releases once, and the concrete
quiescent state reached by one acquire followed by a failed accept has
acquires equal to releases. -/
theorem token_conservation_holds :
    (handleConnection true true).count HEvent.releaseToken = 1 ∧
    (⟨0, 0, 1, 0, 1, 1⟩ : SysState).acq = (⟨0, 0, 1, 0, 1, 1⟩ : SysState).rel :=
  ⟨token_conservation.1 true true,
   token_conservation.2 1 ⟨0, 0, 1, 0, 1, 1⟩
     (Relation.ReflTransGen.tail
       (Relation.ReflTransGen.single (Step.acquire 0 0 0 0 0 0 (by decide)))
       (Step.acceptErr 0 0 0 0 1 0))
     ⟨rfl, rfl⟩⟩

/-- C3: on every exit path of `handleConnection` — write error, read error,
or success — the deferred cleanup runs, exactly once, and its three steps end
the trace in the fixed order: unregister from `activeConnections`, then
release the admission token, then close the socket. -/
theorem cleanup_order :
    ∀ writeOk readOk : Bool,
      ([HEvent.unregister, HEvent.releaseToken, HEvent.closeConn]).isSuffixOf
          (handleConnection writeOk readOk) = true ∧
      (handleConnection writeOk readOk).count HEvent.unregister = 1 ∧
      (handleConnection writeOk readOk).count HEvent.releaseToken = 1 ∧
      (handleConnection writeOk readOk).count HEvent.closeConn = 1 := by
  decide

/-- C4: contrary to the claim (and to `handleConnection`'s own doc comment,
"It also manages connection timeouts"), the handler in `GoPot.go` never sets
a deadline on the connection — no path of its trace contains a `SetDeadline`
call — while the banner-dispatch variant's handler does set the deadline
first, before any write or read. -/
theorem handler_deadline :
    (∀ writeOk readOk : Bool,
        HEvent.setDeadline ∉ handleConnection writeOk readOk) ∧
    ∀ writeOk readOk : Bool,
      (handleConnectionBanner writeOk readOk).head? = some HEvent.setDeadline := by
  decide

/-- C5 counterexample: on a port with no configured banner the peer receives
`"Authentication failed.\n"` — which is not byte-for-byte the claimed default
`"Authentication failed."` (the code appends a newline). -/
theorem default_response_newline :
    bannerResponse (fun _ => none) "80" = "Authentication failed.\n" ∧
    bannerResponse (fun _ => none) "80" ≠ "Authentication failed." := by
  exact ⟨rfl, by decide⟩

/-- C5 (amended): if a per-port banner is configured for the connection's
port, the peer receives that banner byte-for-byte; on every other port the
peer receives the default message `"Authentication failed.\n"` (trailing
newline included) byte-for-byte. -/
theorem banner_dispatch (fakeBanners : String → Option String)
    (port banner : String) :
    (fakeBanners port = some banner → bannerResponse fakeBanners port = banner) ∧
    (fakeBanners port = none →
      bannerResponse fakeBanners port = "Authentication failed.\n") := by
  constructor <;> intro h <;> simp [bannerResponse, h, defaultResponse]

/-- C5 witness: with the spec's example map, port 2222 receives the configured
banner and port 80 receives the default message. -/
theorem banner_dispatch_holds :
    bannerResponse (fun p => if p = "2222" then some "SSH-2.0-fake\n" else none)
        "2222" = "SSH-2.0-fake\n" ∧
    bannerResponse (fun p => if p = "2222" then some "SSH-2.0-fake\n" else none)
        "80" = "Authentication failed.\n" :=
  ⟨(banner_dispatch _ "2222" "SSH-2.0-fake\n").1 (by decide),
   (banner_dispatch _ "80" "").2 (by decide)⟩

/-- C6: after `closeOpenConnections` completes, the registry is empty, and
every connection registered at the start of the call has had `Close` invoked
on it exactly once by that operation. -/
theorem shutdown_drains_registry (reg : List Nat) (hnd : reg.Nodup) :
    (closeOpenConnections reg).reg = [] ∧
    (closeOpenConnections reg).closed = reg ∧
    ∀ c ∈ reg, (closeOpenConnections reg).closed.count c = 1 := by
  have h2 : (closeOpenConnections reg).closed = reg := by
    unfold closeOpenConnections
    rw [closeOpenConnections_snd_go]
    simp
  refine ⟨?_, h2, ?_⟩
  · unfold closeOpenConnections
    rw [closeOpenConnections_fst_go]
    exact foldl_erase_self reg hnd
  · intro c hc
    rw [h2]
    exact List.count_eq_one_of_mem hnd hc

/-- C6 witness: draining a concrete three-connection registry empties it and
closes each registered connection exactly once. -/
theorem shutdown_drains_registry_holds :
    (closeOpenConnections [5, 7, 9]).reg = [] ∧
    (closeOpenConnections [5, 7, 9]).closed = [5, 7, 9] ∧
    ∀ c ∈ [5, 7, 9], (closeOpenConnections [5, 7, 9]).closed.count c = 1 :=
  shutdown_drains_registry [5, 7, 9] (by decide)

/-- C7: the process exit status is non-zero exactly when validation leaves no
port to listen on, in which case it is 1; every run that starts listeners
exits 0, whether it ends by the shutdown signal or by all listeners returning
(e.g. after bind failures on every port). -/
theorem exit_code_spec (ports : List String) (e : RunEnd) :
    (processExitCode (mainStartup ports) e ≠ 0 ↔ (validateAndWarn ports).1 = []) ∧
    ((validateAndWarn ports).1 ≠ [] → processExitCode (mainStartup ports) e = 0) ∧
    ((validateAndWarn ports).1 = [] → processExitCode (mainStartup ports) e = 1) := by
  unfold mainStartup processExitCode
  by_cases hv : (validateAndWarn ports).1 = []
  · simp [hv]
  · cases e <;> simp [hv, List.isEmpty_iff]

/-- C7 witness: a run over a valid port exits 0 however it ends, and a
configuration with no valid port exits 1. -/
theorem exit_code_spec_holds :
    processExitCode (mainStartup ["80"]) RunEnd.signalShutdown = 0 ∧
    processExitCode (mainStartup ["80"]) RunEnd.allListenersReturned = 0 ∧
    processExitCode (mainStartup ["abc"]) RunEnd.signalShutdown = 1 :=
  ⟨(exit_code_spec ["80"] RunEnd.signalShutdown).2.1 (by decide),
   (exit_code_spec ["80"] RunEnd.allListenersReturned).2.1 (by decide),
   (exit_code_spec ["abc"] RunEnd.signalShutdown).2.2 (by decide)⟩

/-- C8: on the input `["80", "99999", "-1", "abc", "443"]` validation keeps
exactly `["80", "443"]` in that order and warns once for each of the three
invalid entries; in general an entry is kept iff Atoi parses it to a value in
`(0, 65535]`, and the kept entries are the order-preserving filter of the
input. -/
theorem port_validation_spec :
    validateAndWarn ["80", "99999", "-1", "abc", "443"]
        = (["80", "443"], ["99999", "-1", "abc"]) ∧
    (∀ ports : List String,
        (validateAndWarn ports).1 = ports.filter (fun p => isValidPort p) ∧
        (validateAndWarn ports).2 = ports.filter (fun p => !isValidPort p)) ∧
    ∀ s : String,
      isValidPort s = true ↔ ∃ p : Int, atoi s = some p ∧ 0 < p ∧ p ≤ 65535 :=
  ⟨by decide,
   fun ports => ⟨validateAndWarn_fst ports, validateAndWarn_snd ports⟩,
   isValidPort_iff⟩

/-- C9 counterexample: validation does not deduplicate — the input
`["80", "80"]` validates to `["80", "80"]`, which contains a duplicate
port. -/
theorem validation_keeps_duplicates :
    (validateAndWarn ["80", "80"]).1 = ["80", "80"] ∧
    ¬ (validateAndWarn ["80", "80"]).1.Nodup := by
  decide

/-- C9 (amended): validation drops invalid entries but performs no
deduplication — the validated list is exactly the valid input entries in
order, so a valid port appearing twice in the input appears twice in the
validated list. -/
theorem validation_no_dedup :
    (∀ ports : List String,
        (validateAndWarn ports).1 = ports.filter (fun p => isValidPort p)) ∧
    (validateAndWarn ["443", "443", "80"]).1 = ["443", "443", "80"] :=
  ⟨validateAndWarn_fst, by decide⟩

/-- C10: validation accepts any string Atoi parses to a value in
`(0, 65535]`, including the non-canonical spellings `"+80"` and `"0080"`;
such entries are kept verbatim, so `"80"` and `"0080"` both survive as
distinct entries denoting the same port number. -/
theorem atoi_noncanonical_spellings :
    isValidPort "+80" = true ∧ isValidPort "0080" = true ∧
    (validateAndWarn ["80", "0080"]).1 = ["80", "0080"] ∧
    atoi "80" = some 80 ∧ atoi "0080" = some 80 ∧ "80" ≠ "0080" ∧
    ∀ s : String,
      isValidPort s = true ↔ ∃ p : Int, atoi s = some p ∧ 0 < p ∧ p ≤ 65535 :=
  ⟨by decide, by decide, by decide, by decide, by decide, by decide,
   isValidPort_iff⟩

end GoPot
